import Mathlib

/-!
Verification of the tank-level computation engine of the kiran-backend
repository.

The embedded source functions:
* `horizontalCylinderVolumeLitres` — routes/updateData.js, lines 12-41
* `horizontalCylinderVolume`       — routes/tankCurrent.js, lines 13-23
* `statusFromLimits`               — routes/tankCurrent.js, lines 28-46
* `buildTankResponseRow`           — routes/tankCurrent.js, lines 51-169
* `updateDataDepth` / `updateDataClassify` — routes/updateData.js POST body,
  lines 184-225
* `historyRowCalc`                 — routes/tankHistoryByTank.js, lines 89-161

JavaScript numbers are modelled as real numbers plus the three non-finite
values (`JsNum`); code paths that the sources only ever reach behind a
`Number.isFinite` guard work directly on `ℝ`.  `x.toFixed(1)` followed by
`Number(...)` is modelled by `round1` (round half towards positive infinity
at one decimal, which is what ToFixed does for the magnitudes involved).
Database nullability is modelled with `Option`.
-/

noncomputable section

/-- A JavaScript number after `Number(...)` coercion: a finite real, `NaN`,
or one of the two infinities. -/
inductive JsNum where
  | num (x : ℝ)
  | nan
  | posInf
  | negInf

namespace JsNum

/-- `Number.isFinite` -/
def isFinite : JsNum → Bool
  | num _ => true
  | _ => false

/-- The real value of a finite JS number.  The non-finite values map to 0;
the embedded code only reads this field behind a finiteness guard. -/
def toReal : JsNum → ℝ
  | num x => x
  | _ => 0

end JsNum

/-- `Number(x.toFixed(1))`: round to one decimal place, ties towards
positive infinity. -/
def round1 (x : ℝ) : ℝ := ((Int.floor (x * 10 + 1 / 2) : ℤ) : ℝ) / 10

/-- `horizontalCylinderVolumeLitres` from routes/updateData.js: volume in
litres of a partially filled horizontal cylinder, with finiteness guard,
degenerate-dimension guard, and clamping of the depth into `[0, 2r]`. -/
def horizontalCylinderVolumeLitres (D L h : JsNum) : ℝ :=
  if ¬ (D.isFinite ∧ L.isFinite ∧ h.isFinite) then 0
  else
    let Dnum := D.toReal
    let Lnum := L.toReal
    let hnum := h.toReal
    if Dnum ≤ 0 ∨ Lnum ≤ 0 then 0
    else if hnum ≤ 0 then 0
    else
      let r := Dnum / 2
      let hlo := if hnum < 0 then 0 else hnum
      let hcl := if 2 * r < hlo then 2 * r else hlo
      let areaSegment :=
        r * r * Real.arccos ((r - hcl) / r)
          - (r - hcl) * Real.sqrt (2 * r * hcl - hcl * hcl)
      areaSegment * Lnum * 1000

/-- `horizontalCylinderVolume` from routes/tankCurrent.js: volume in m³ of a
partially filled horizontal cylinder (no finiteness or dimension guard; its
caller checks `D > 0 && L > 0`). -/
def horizontalCylinderVolume (D L h : ℝ) : ℝ :=
  let R := D / 2
  if h ≤ 0 then 0
  else if D ≤ h then Real.pi * R * R * L
  else
    let term1 := R * R * Real.arccos ((R - h) / R)
    let term2 := (R - h) * Real.sqrt (2 * R * h - h * h)
    L * (term1 - term2)

/-- `maxL != null && actualL >= maxL` from `statusFromLimits`. -/
def highLimitHit (actualL : ℝ) (maxL : Option ℝ) : Bool :=
  match maxL with
  | some mx => decide (mx ≤ actualL)
  | none => false

/-- `minL != null && actualL <= minL` from `statusFromLimits`. -/
def lowLimitHit (actualL : ℝ) (minL : Option ℝ) : Bool :=
  match minL with
  | some mn => decide (actualL ≤ mn)
  | none => false

/-- `statusFromLimits` from routes/tankCurrent.js: decide
`(tank_status, tank_alert_message)` from the actual volume and the safe
limits (all in litres, `null` modelled as `none`). -/
def statusFromLimits (actualL minL maxL : Option ℝ) : String × String :=
  match actualL with
  | none => ("Unknown", "No reading")
  | some a =>
    if minL = none ∧ maxL = none then ("OK", "Normal")
    else if highLimitHit a maxL then ("Warning", "High level")
    else if lowLimitHit a minL then ("Warning", "Low level")
    else ("OK", "Normal")

/-- The liquid depth computed by the POST /api/update-data route
(routes/updateData.js line 186): `Math.max(0, Number(D) - ultraH)` —
floored at 0 but not capped at `D`. -/
def updateDataDepth (D ultraH : ℝ) : ℝ := max 0 (D - ultraH)

/-- The `(flowStatus, tank_status, tank_alert_message)` triple produced by
the POST /api/update-data route. -/
structure UpdStatus where
  flowStatus : String
  tankStatus : String
  tankAlertMessage : String
  deriving Repr, DecidableEq

/-- Status/alert decision of the POST /api/update-data route
(routes/updateData.js lines 197-225).  `upperSafeLitres`/`lowerSafeLitres`
are already coerced with `Number(...) || 0`, so a missing limit is 0 and a
limit only counts when positive. -/
def updateDataClassify (ultraH : JsNum)
    (capacityLitres upperSafeLitres lowerSafeLitres currentLevelLitres : ℝ) :
    UpdStatus :=
  if ¬ ultraH.isFinite then
    { flowStatus := "Inactive", tankStatus := "No Data",
      tankAlertMessage := "No valid level" }
  else if 0 < capacityLitres then
    if 0 < upperSafeLitres ∧ upperSafeLitres ≤ currentLevelLitres then
      { flowStatus := "Normal", tankStatus := "Warning",
        tankAlertMessage := "High level" }
    else if 0 < lowerSafeLitres ∧ currentLevelLitres ≤ lowerSafeLitres then
      { flowStatus := "Normal", tankStatus := "Warning",
        tankAlertMessage := "Low level" }
    else
      { flowStatus := "Normal", tankStatus := "OK",
        tankAlertMessage := "Normal" }
  else if ultraH.toReal ≤ 0 then
    { flowStatus := "Normal", tankStatus := "Warning",
      tankAlertMessage := "Low level" }
  else
    { flowStatus := "Normal", tankStatus := "OK",
      tankAlertMessage := "Normal" }

/-- Depth resolution block of `buildTankResponseRow`
(routes/tankCurrent.js lines 71-86): FIRE-TANK uses the rectangular height
17.9 m, every other tank uses the diameter, both with sequential
`if (d < 0) d = 0; if (d > M) d = M;` clamping. -/
def resolveDepth (tankNo : String) (D : ℝ) (sensor : Option ℝ) : Option ℝ :=
  match sensor with
  | none => none
  | some s =>
    if tankNo = "FIRE-TANK" then
      let d0 := 17.9 - s
      let d1 := if d0 < 0 then 0 else d0
      let d2 := if 17.9 < d1 then 17.9 else d1
      some d2
    else if 0 < D then
      let d0 := D - s
      let d1 := if d0 < 0 then 0 else d0
      let d2 := if D < d1 then D else d1
      some d2
    else none

/-- Raw-volume block of `buildTankResponseRow`
(routes/tankCurrent.js lines 88-102), in litres. -/
def rawVolumeLitres (tankNo : String) (D L : ℝ) (depth : Option ℝ) :
    Option ℝ :=
  match depth with
  | none => none
  | some d =>
    if tankNo = "FIRE-TANK" then some (8.9 * 5.15 * d * 1000)
    else if 0 < D ∧ 0 < L then some (horizontalCylinderVolume D L d * 1000)
    else none

/-- Fill-percentage block of `buildTankResponseRow`
(routes/tankCurrent.js lines 128-131). -/
def computeFillPct (capacityL effectiveVolumeL : Option ℝ) : Option ℝ :=
  match capacityL, effectiveVolumeL with
  | some c, some e => if 0 < c then some (round1 (e / c * 100)) else none
  | _, _ => none

/-- `minutesSinceLast` (routes/tankCurrent.js line 58); times in epoch
milliseconds. -/
def minutesSince (now : ℝ) (dateTime : Option ℝ) : Option ℝ :=
  dateTime.map (fun t => (now - t) / (1000 * 60))

/-- The 30-minute staleness test (routes/tankCurrent.js lines 55-62): an
absent or unparsable `date_time` is stale, otherwise stale iff strictly
more than 30 minutes old. -/
def isStaleAt (now : ℝ) (dateTime : Option ℝ) : Bool :=
  match dateTime with
  | none => true
  | some t => decide (30 < (now - t) / (1000 * 60))

/-- One joined row fed to `buildTankResponseRow`; `date_time` is a parsed
epoch-millisecond timestamp, `none` covering both SQL NULL and an invalid
date. -/
structure Row where
  device_id : String
  tank_no : String
  location : String
  date_time : Option ℝ
  diameter_breadth : Option ℝ
  length : Option ℝ
  tank_volume : Option ℝ
  upper_safe_limit_pct : Option ℝ
  lower_safe_limit_pct : Option ℝ
  ultra_height : Option ℝ

/-- The computed fields of the response object built by
`buildTankResponseRow`. -/
structure TankResp where
  stale : Bool
  minutes_since_last : Option ℝ
  water_depth_m : Option ℝ
  raw_volume_l : Option ℝ
  effective_volume_l : Option ℝ
  fill_percentage : Option ℝ
  tank_status : String
  tank_alert_message : String

/-- `buildTankResponseRow` from routes/tankCurrent.js (lines 51-169), with
the clock `now` injected (epoch milliseconds). -/
def buildTankResponseRow (now : ℝ) (row : Row) : TankResp :=
  let isStale := isStaleAt now row.date_time
  let D := row.diameter_breadth.getD 0
  let L := row.length.getD 0
  let capacityL := row.tank_volume
  let sensor := row.ultra_height
  let depth := resolveDepth row.tank_no D sensor
  let rawVol := rawVolumeLitres row.tank_no D L depth
  let maxL := row.upper_safe_limit_pct
  let minL := row.lower_safe_limit_pct
  let effectiveVol : Option ℝ := if isStale then some 0 else rawVol
  let statusPair : String × String :=
    if isStale then ("Inactive", "No reading in last 30 minutes")
    else statusFromLimits rawVol minL maxL
  { stale := isStale
    minutes_since_last := (minutesSince now row.date_time).map round1
    water_depth_m := depth
    raw_volume_l := rawVol.map round1
    effective_volume_l := effectiveVol.map round1
    fill_percentage := computeFillPct capacityL effectiveVol
    tank_status := statusPair.1
    tank_alert_message := statusPair.2 }

/-- One transaction row fed to the history mapper of
routes/tankHistoryByTank.js. -/
structure HistRow where
  tank_no : String
  ultra_height : Option ℝ
  tank_volume : Option ℝ
  diameter_breadth : Option ℝ
  length : Option ℝ

/-- The computed fields of one history point. -/
structure HistOut where
  water_depth_m : Option ℝ
  water_volume_l : Option ℝ
  volume_percentage : Option ℝ

/-- The per-row computation of GET /api/tanks/history
(routes/tankHistoryByTank.js lines 89-161). -/
def historyRowCalc (r : HistRow) : HistOut :=
  let sensor := r.ultra_height
  let tankVolumeL := r.tank_volume.getD 0
  if r.tank_no = "FIRE-TANK" then
    match sensor with
    | some s =>
      let w0 := 17.9 - s
      let w1 := if w0 < 0 then 0 else w0
      let waterHeightM := if 17.9 < w1 then 17.9 else w1
      let volumeL := 8.9 * 5.15 * waterHeightM * 1000
      let volumePct : Option ℝ :=
        if 0 < tankVolumeL then some (volumeL / tankVolumeL * 100) else none
      { water_depth_m := some waterHeightM
        water_volume_l := some (round1 volumeL)
        volume_percentage := volumePct.map round1 }
    | none =>
      { water_depth_m := none, water_volume_l := none,
        volume_percentage := none }
  else
    let D := r.diameter_breadth.getD 0
    let L := r.length.getD 0
    match sensor with
    | some s =>
      if 0 < D ∧ 0 < L then
        let depth := max 0 (min (D - s) D)
        let volumeL := horizontalCylinderVolume D L depth * 1000
        let volumePct : Option ℝ :=
          if 0 < tankVolumeL then some (volumeL / tankVolumeL * 100) else none
        { water_depth_m := some depth
          water_volume_l := some (round1 volumeL)
          volume_percentage := volumePct.map round1 }
      else
        { water_depth_m := none, water_volume_l := none,
          volume_percentage := none }
    | none =>
      { water_depth_m := none, water_volume_l := none,
        volume_percentage := none }

/-! ## Helper lemmas -/

lemma round1_int_div_ten (n : ℤ) : round1 ((n : ℝ) / 10) = (n : ℝ) / 10 := by
  unfold round1
  have h1 : ((n : ℝ) / 10) * 10 + 1 / 2 = (n : ℝ) + 1 / 2 := by ring
  have h2 : Int.floor ((1 : ℝ) / 2) = 0 := by
    rw [Int.floor_eq_zero_iff, Set.mem_Ico]
    constructor <;> norm_num
  rw [h1, Int.floor_int_add, h2, add_zero]

lemma round1_zero : round1 0 = 0 := by
  have h := round1_int_div_ten 0
  simpa using h

lemma round1_fire_full : round1 (8.9 * 5.15 * 17.9 * 1000) = 820446.5 := by
  have h : (8.9 * 5.15 * 17.9 * 1000 : ℝ) = ((8204465 : ℤ) : ℝ) / 10 := by
    norm_num
  rw [h, round1_int_div_ten]
  norm_num

/-- The circular-segment area in angle form: a segment subtending the angle
`2·θ` in a unit circle has area `θ − sin θ · cos θ`. -/
def segAngle (θ : ℝ) : ℝ := θ - Real.sin θ * Real.cos θ

lemma segAngle_hasDerivAt (x : ℝ) :
    HasDerivAt segAngle
      (1 - (Real.cos x * Real.cos x + Real.sin x * (-Real.sin x))) x := by
  have h := (hasDerivAt_id x).sub
    ((Real.hasDerivAt_sin x).mul (Real.hasDerivAt_cos x))
  simpa [segAngle] using h

lemma segAngle_monotone : Monotone segAngle := by
  apply monotone_of_deriv_nonneg
  · intro x
    exact (segAngle_hasDerivAt x).differentiableAt
  · intro x
    rw [(segAngle_hasDerivAt x).deriv]
    nlinarith [Real.sin_sq_add_cos_sq x, sq_nonneg (Real.sin x)]

lemma segAngle_zero : segAngle 0 = 0 := by simp [segAngle]

lemma segAngle_pi : segAngle Real.pi = Real.pi := by simp [segAngle]

lemma segAngle_nonneg {θ : ℝ} (h : 0 ≤ θ) : 0 ≤ segAngle θ := by
  have hm := segAngle_monotone h
  rwa [segAngle_zero] at hm

lemma arccos_antitone : Antitone Real.arccos := by
  intro x y hxy
  unfold Real.arccos
  have h := Real.monotone_arcsin hxy
  linarith

lemma segArea_eq (R h : ℝ) (hR : 0 < R) (h0 : 0 ≤ h) (h2R : h ≤ 2 * R) :
    R * R * Real.arccos ((R - h) / R)
        - (R - h) * Real.sqrt (2 * R * h - h * h)
      = R * R * segAngle (Real.arccos ((R - h) / R)) := by
  have hc1 : (-1 : ℝ) ≤ (R - h) / R := by
    rw [le_div_iff₀ hR]
    linarith
  have hc2 : (R - h) / R ≤ 1 := by
    rw [div_le_one hR]
    linarith
  have hcos : Real.cos (Real.arccos ((R - h) / R)) = (R - h) / R :=
    Real.cos_arccos hc1 hc2
  have hsin : Real.sin (Real.arccos ((R - h) / R))
      = Real.sqrt (1 - ((R - h) / R) ^ 2) := Real.sin_arccos _
  have hsq : R ^ 2 * (1 - ((R - h) / R) ^ 2) = 2 * R * h - h * h := by
    field_simp
    ring
  have hkey : R * Real.sqrt (1 - ((R - h) / R) ^ 2)
      = Real.sqrt (2 * R * h - h * h) := by
    rw [← hsq, Real.sqrt_mul (sq_nonneg R), Real.sqrt_sq hR.le]
  have hRc : R * ((R - h) / R) = R - h := by field_simp
  unfold segAngle
  rw [hsin, hcos, ← hkey]
  linear_combination (R * Real.sqrt (1 - ((R - h) / R) ^ 2)) * hRc

/-- Total evaluation of the litres function on positive inputs: the
depth is clamped to `min h D` and fed to the raw segment-area formula. -/
lemma hcvl_pos_eval (D L h : ℝ) (hD : 0 < D) (hL : 0 < L) (hh : 0 < h) :
    horizontalCylinderVolumeLitres (JsNum.num D) (JsNum.num L) (JsNum.num h)
      = (D / 2 * (D / 2) * Real.arccos ((D / 2 - min h D) / (D / 2))
          - (D / 2 - min h D)
            * Real.sqrt (2 * (D / 2) * min h D - min h D * min h D))
          * L * 1000 := by
  have hcl : (if 2 * (D / 2) < h then 2 * (D / 2) else h) = min h D := by
    rcases lt_or_le (2 * (D / 2)) h with hlt | hle
    · rw [if_pos hlt, min_eq_right (by linarith)]
      ring
    · rw [if_neg (not_lt.mpr hle), min_eq_left (by linarith)]
  simp only [horizontalCylinderVolumeLitres, JsNum.isFinite, JsNum.toReal]
  rw [if_neg (by simp), if_neg (by push_neg; exact ⟨hD, hL⟩),
    if_neg (not_le.mpr hh), if_neg (not_lt.mpr hh.le), hcl]

/-- On positive inputs the litres function is the segment-angle form. -/
lemma hcvl_seg_eval (D L h : ℝ) (hD : 0 < D) (hL : 0 < L) (hh : 0 < h) :
    horizontalCylinderVolumeLitres (JsNum.num D) (JsNum.num L) (JsNum.num h)
      = D / 2 * (D / 2)
          * segAngle (Real.arccos ((D / 2 - min h D) / (D / 2))) * L * 1000 := by
  rw [hcvl_pos_eval D L h hD hL hh]
  have hR : 0 < D / 2 := by linarith
  have h0 : 0 ≤ min h D := le_min hh.le hD.le
  have h2R : min h D ≤ 2 * (D / 2) := by
    have hm := min_le_right h D
    linarith
  rw [segArea_eq (D / 2) (min h D) hR h0 h2R]

lemma hcvl_of_nonpos_depth (D L h : ℝ) (hh : h ≤ 0) :
    horizontalCylinderVolumeLitres (JsNum.num D) (JsNum.num L) (JsNum.num h)
      = 0 := by
  simp [horizontalCylinderVolumeLitres, JsNum.isFinite, JsNum.toReal, hh]

lemma hcvl_of_degenerate (D L h : ℝ) (hDL : D ≤ 0 ∨ L ≤ 0) :
    horizontalCylinderVolumeLitres (JsNum.num D) (JsNum.num L) (JsNum.num h)
      = 0 := by
  simp [horizontalCylinderVolumeLitres, JsNum.isFinite, JsNum.toReal, hDL]

lemma hcvl_of_nonfinite (D L h : JsNum)
    (hn : ¬ (D.isFinite ∧ L.isFinite ∧ h.isFinite)) :
    horizontalCylinderVolumeLitres D L h = 0 := by
  unfold horizontalCylinderVolumeLitres
  rw [if_pos hn]

lemma hcvl_nonneg (D L h : ℝ) (hD : 0 < D) (hL : 0 < L) :
    0 ≤ horizontalCylinderVolumeLitres (JsNum.num D) (JsNum.num L)
          (JsNum.num h) := by
  rcases le_or_lt h 0 with hh | hh
  · rw [hcvl_of_nonpos_depth D L h hh]
  · rw [hcvl_seg_eval D L h hD hL hh]
    have hseg : 0 ≤ segAngle (Real.arccos ((D / 2 - min h D) / (D / 2))) :=
      segAngle_nonneg (Real.arccos_nonneg _)
    have hR : (0 : ℝ) ≤ D / 2 := by linarith
    positivity

/-- For a full tank (`D ≤ h`) the litres function returns the full
cylinder volume. -/
lemma hcvl_full (D L h : ℝ) (hD : 0 < D) (hL : 0 < L) (hh : D ≤ h) :
    horizontalCylinderVolumeLitres (JsNum.num D) (JsNum.num L) (JsNum.num h)
      = Real.pi * (D / 2) ^ 2 * L * 1000 := by
  have hh0 : 0 < h := lt_of_lt_of_le hD hh
  rw [hcvl_seg_eval D L h hD hL hh0, min_eq_right hh]
  have hR : (0 : ℝ) < D / 2 := by linarith
  have harg : (D / 2 - D) / (D / 2) = -1 := by
    rw [div_eq_iff (ne_of_gt hR)]
    ring
  rw [harg, Real.arccos_neg_one, segAngle_pi]
  ring

/-- For an interior depth (`0 < h < D`) the litres function is the raw
segment formula. -/
lemma hcvl_interior (D L h : ℝ) (hD : 0 < D) (hL : 0 < L) (h0 : 0 < h)
    (hDh : h < D) :
    horizontalCylinderVolumeLitres (JsNum.num D) (JsNum.num L) (JsNum.num h)
      = L * ((D / 2) ^ 2 * Real.arccos ((D / 2 - h) / (D / 2))
          - (D / 2 - h) * Real.sqrt (2 * (D / 2) * h - h ^ 2)) * 1000 := by
  rw [hcvl_pos_eval D L h hD hL h0, min_eq_left hDh.le]
  ring_nf

/-- For positive dimensions the two embedded cylinder implementations
agree: the m³ function of tankCurrent.js times 1000 is the litres function
of updateData.js. -/
lemma hcv_m3_litres_agree (D L h : ℝ) (hD : 0 < D) (hL : 0 < L) :
    horizontalCylinderVolume D L h * 1000
      = horizontalCylinderVolumeLitres (JsNum.num D) (JsNum.num L)
          (JsNum.num h) := by
  rcases le_or_lt h 0 with h0 | h0
  · rw [hcvl_of_nonpos_depth D L h h0]
    simp [horizontalCylinderVolume, h0]
  · rcases lt_or_le h D with hDh | hDh
    · rw [hcvl_interior D L h hD hL h0 hDh]
      simp only [horizontalCylinderVolume]
      rw [if_neg (not_le.mpr h0), if_neg (not_le.mpr hDh)]
      ring_nf
    · rw [hcvl_full D L h hD hL hDh]
      simp only [horizontalCylinderVolume]
      rw [if_neg (not_le.mpr h0), if_pos hDh]
      ring

/-- Monotonicity of the litres function in the depth. -/
lemma hcvl_mono (D L h1 h2 : ℝ) (hD : 0 < D) (hL : 0 < L) (h12 : h1 < h2) :
    horizontalCylinderVolumeLitres (JsNum.num D) (JsNum.num L) (JsNum.num h1)
      ≤ horizontalCylinderVolumeLitres (JsNum.num D) (JsNum.num L)
          (JsNum.num h2) := by
  rcases le_or_lt h1 0 with h10 | h10
  · rw [hcvl_of_nonpos_depth D L h1 h10]
    exact hcvl_nonneg D L h2 hD hL
  · have h20 : 0 < h2 := lt_trans h10 h12
    rw [hcvl_seg_eval D L h1 hD hL h10, hcvl_seg_eval D L h2 hD hL h20]
    have hR : (0 : ℝ) < D / 2 := by linarith
    have hmin : min h1 D ≤ min h2 D := min_le_min h12.le le_rfl
    have hdiv : (D / 2 - min h2 D) / (D / 2)
        ≤ (D / 2 - min h1 D) / (D / 2) := by
      rw [div_le_div_iff_of_pos_right hR]
      linarith
    have harc := arccos_antitone hdiv
    have hseg := segAngle_monotone harc
    have hfac : (0 : ℝ) ≤ D / 2 * (D / 2) := by positivity
    have key := mul_le_mul_of_nonneg_left hseg hfac
    have key2 := mul_le_mul_of_nonneg_right key hL.le
    exact mul_le_mul_of_nonneg_right key2 (by norm_num : (0 : ℝ) ≤ 1000)

/-- The half-full scenario evaluates to `2500·π` litres. -/
lemma hcvl_scenarioA :
    horizontalCylinderVolumeLitres (JsNum.num 2) (JsNum.num 5) (JsNum.num 1)
      = 2500 * Real.pi := by
  rw [hcvl_interior 2 5 1 (by norm_num) (by norm_num) (by norm_num)
    (by norm_num)]
  norm_num [Real.arccos_zero]
  ring

lemma isStaleAt_true_iff (now : ℝ) (dt : Option ℝ) :
    isStaleAt now dt = true
      ↔ dt = none ∨ ∃ t, dt = some t ∧ 30 < (now - t) / (1000 * 60) := by
  cases dt with
  | none => simp [isStaleAt]
  | some t => simp [isStaleAt]

lemma isStaleAt_false_iff (now t : ℝ) :
    isStaleAt now (some t) = false ↔ (now - t) / (1000 * 60) ≤ 30 := by
  simp [isStaleAt]

/-! ## Claim theorems -/

/-- C2: the horizontal-cylinder litres function returns 0 for `h ≤ 0`, the
full volume `π·(D/2)²·L·1000` for `h ≥ D`, the circular-segment formula for
`0 < h < D`, 0 whenever `D ≤ 0` or `L ≤ 0`, and ≈7854.0 L on the half-full
scenario `D=2, L=5, h=1`. -/
theorem C2_cylinderVolume_cases :
    (∀ D L h : ℝ, h ≤ 0 →
        horizontalCylinderVolumeLitres (JsNum.num D) (JsNum.num L)
          (JsNum.num h) = 0)
    ∧ (∀ D L h : ℝ, D ≤ 0 ∨ L ≤ 0 →
        horizontalCylinderVolumeLitres (JsNum.num D) (JsNum.num L)
          (JsNum.num h) = 0)
    ∧ (∀ D L h : ℝ, 0 < D → 0 < L → D ≤ h →
        horizontalCylinderVolumeLitres (JsNum.num D) (JsNum.num L)
          (JsNum.num h) = Real.pi * (D / 2) ^ 2 * L * 1000)
    ∧ (∀ D L h : ℝ, 0 < D → 0 < L → 0 < h → h < D →
        horizontalCylinderVolumeLitres (JsNum.num D) (JsNum.num L)
            (JsNum.num h)
          = L * ((D / 2) ^ 2 * Real.arccos ((D / 2 - h) / (D / 2))
              - (D / 2 - h) * Real.sqrt (2 * (D / 2) * h - h ^ 2)) * 1000)
    ∧ |horizontalCylinderVolumeLitres (JsNum.num 2) (JsNum.num 5)
          (JsNum.num 1) - 7854| < 1 / 10 := by
  refine ⟨fun D L h hh => hcvl_of_nonpos_depth D L h hh,
    fun D L h hDL => hcvl_of_degenerate D L h hDL,
    fun D L h hD hL hh => hcvl_full D L h hD hL hh,
    fun D L h hD hL h0 hDh => hcvl_interior D L h hD hL h0 hDh, ?_⟩
  rw [hcvl_scenarioA, abs_lt]
  constructor <;> nlinarith [Real.pi_gt_d6, Real.pi_lt_d6]

/-- Witness for C2 at concrete inputs. -/
theorem C2_cylinderVolume_cases_witness :
    horizontalCylinderVolumeLitres (JsNum.num 2) (JsNum.num 5) (JsNum.num 0)
        = 0
    ∧ horizontalCylinderVolumeLitres (JsNum.num 2) (JsNum.num 5)
          (JsNum.num 2) = Real.pi * (2 / 2) ^ 2 * 5 * 1000
    ∧ horizontalCylinderVolumeLitres (JsNum.num 0) (JsNum.num 5)
          (JsNum.num 1) = 0 :=
  ⟨C2_cylinderVolume_cases.1 2 5 0 (by norm_num),
    C2_cylinderVolume_cases.2.2.1 2 5 2 (by norm_num) (by norm_num)
      (by norm_num),
    C2_cylinderVolume_cases.2.1 0 5 1 (Or.inl (by norm_num))⟩

/-- C8: the horizontal-cylinder litres function is monotone non-decreasing
in the depth argument for positive `D` and `L`. -/
theorem C8_cylinderVolume_monotone (D L h1 h2 : ℝ) (hD : 0 < D)
    (hL : 0 < L) (h12 : h1 < h2) :
    horizontalCylinderVolumeLitres (JsNum.num D) (JsNum.num L) (JsNum.num h1)
      ≤ horizontalCylinderVolumeLitres (JsNum.num D) (JsNum.num L)
          (JsNum.num h2) :=
  hcvl_mono D L h1 h2 hD hL h12

/-- Witness for C8 at concrete inputs. -/
theorem C8_cylinderVolume_monotone_witness :
    (0 : ℝ) < 2 ∧ (0 : ℝ) < 5 ∧ (1 / 2 : ℝ) < 1
    ∧ horizontalCylinderVolumeLitres (JsNum.num 2) (JsNum.num 5)
          (JsNum.num (1 / 2))
        ≤ horizontalCylinderVolumeLitres (JsNum.num 2) (JsNum.num 5)
            (JsNum.num 1) :=
  ⟨by norm_num, by norm_num, by norm_num,
    C8_cylinderVolume_monotone 2 5 (1 / 2) 1 (by norm_num) (by norm_num)
      (by norm_num)⟩

/-- C5 counterexample: on a non-finite (NaN) input the litres geometry
function returns the value 0 — it does not raise; no `GeometryError`
exists anywhere in the source. -/
theorem C5_counterexample :
    horizontalCylinderVolumeLitres JsNum.nan (JsNum.num 5) (JsNum.num 1)
      = 0 :=
  hcvl_of_nonfinite _ _ _ (by simp [JsNum.isFinite])

/-- C5 amended: the geometry volume function is total and never raises; a
non-finite input yields 0 (not an error), and degenerate or non-positive
inputs also degrade to 0. -/
theorem C5_geometry_total :
    (∀ D L h : JsNum, ¬ (D.isFinite ∧ L.isFinite ∧ h.isFinite) →
        horizontalCylinderVolumeLitres D L h = 0)
    ∧ (∀ D L h : ℝ, D ≤ 0 ∨ L ≤ 0 →
        horizontalCylinderVolumeLitres (JsNum.num D) (JsNum.num L)
          (JsNum.num h) = 0)
    ∧ (∀ D L h : ℝ, h ≤ 0 →
        horizontalCylinderVolumeLitres (JsNum.num D) (JsNum.num L)
          (JsNum.num h) = 0) :=
  ⟨fun D L h hn => hcvl_of_nonfinite D L h hn,
    fun D L h hDL => hcvl_of_degenerate D L h hDL,
    fun D L h hh => hcvl_of_nonpos_depth D L h hh⟩

/-- Witness for C5 at concrete inputs. -/
theorem C5_geometry_total_witness :
    horizontalCylinderVolumeLitres (JsNum.num 2) JsNum.posInf (JsNum.num 1)
        = 0
    ∧ horizontalCylinderVolumeLitres (JsNum.num (-3)) (JsNum.num 5)
        (JsNum.num 1) = 0 :=
  ⟨C5_geometry_total.1 _ _ _ (by simp [JsNum.isFinite]),
    C5_geometry_total.2.1 (-3) 5 1 (Or.inl (by norm_num))⟩

/-- C4 counterexample: with `upper_limit = 5`, `lower_limit = 10` and a
level of exactly 10 (equal to the lower limit), `statusFromLimits` returns
"High level", not "Low level", because the high-level check runs first. -/
theorem C4_counterexample :
    statusFromLimits (some 10) (some 10) (some 5) = ("Warning", "High level")
    ∧ (statusFromLimits (some 10) (some 10) (some 5)).2 ≠ "Low level" := by
  have h : statusFromLimits (some 10) (some 10) (some 5)
      = ("Warning", "High level") := by
    norm_num [statusFromLimits, highLimitHit]
    intro h
    simp at h
  refine ⟨h, ?_⟩
  rw [h]
  simp

/-- C4 amended: a level exactly equal to a configured upper limit always
classifies as Warning/"High level"; a level exactly equal to a configured
lower limit classifies as Warning/"Low level" provided the high-level
check does not also fire (it has priority).  In the update-data route a
limit is configured only when positive and a capacity is known. -/
theorem C4_inclusive_boundaries :
    (∀ (a : ℝ) (minL : Option ℝ),
        statusFromLimits (some a) minL (some a) = ("Warning", "High level"))
    ∧ (∀ (a : ℝ) (maxL : Option ℝ), (∀ mx, maxL = some mx → a < mx) →
        statusFromLimits (some a) (some a) maxL = ("Warning", "Low level"))
    ∧ (∀ u cap up lo : ℝ, 0 < cap → 0 < up →
        updateDataClassify (JsNum.num u) cap up lo up
          = ⟨"Normal", "Warning", "High level"⟩)
    ∧ (∀ u cap up lo : ℝ, 0 < cap → 0 < lo → (0 < up → lo < up) →
        updateDataClassify (JsNum.num u) cap up lo lo
          = ⟨"Normal", "Warning", "Low level"⟩) := by
  refine ⟨?_, ?_, ?_, ?_⟩
  · intro a minL
    simp [statusFromLimits, highLimitHit]
  · intro a maxL hmx
    cases maxL with
    | none => simp [statusFromLimits, highLimitHit, lowLimitHit]
    | some mx =>
      have hlt : a < mx := hmx mx rfl
      simp [statusFromLimits, highLimitHit, lowLimitHit, hlt.not_le]
  · intro u cap up lo hcap hup
    simp [updateDataClassify, JsNum.isFinite, hcap, hup]
  · intro u cap up lo hcap hlo hupi
    have hhigh : ¬ (0 < up ∧ up ≤ lo) := by
      rintro ⟨hup, hle⟩
      exact absurd (hupi hup) (not_lt.mpr hle)
    simp [updateDataClassify, JsNum.isFinite, hcap, hlo, hhigh]

/-- Witness for C4 at concrete inputs. -/
theorem C4_inclusive_boundaries_witness :
    statusFromLimits (some 5) (some 2) (some 5) = ("Warning", "High level")
    ∧ statusFromLimits (some 2) (some 2) (some 9)
        = ("Warning", "Low level")
    ∧ updateDataClassify (JsNum.num 1) 100 80 20 80
        = ⟨"Normal", "Warning", "High level"⟩
    ∧ updateDataClassify (JsNum.num 1) 100 80 20 20
        = ⟨"Normal", "Warning", "Low level"⟩ :=
  ⟨C4_inclusive_boundaries.1 5 (some 2),
    C4_inclusive_boundaries.2.1 2 (some 9)
      (by
        intro mx hmx
        obtain rfl : (9 : ℝ) = mx := Option.some_inj.mp hmx
        norm_num),
    C4_inclusive_boundaries.2.2.1 1 100 80 20 (by norm_num) (by norm_num),
    C4_inclusive_boundaries.2.2.2 1 100 80 20 (by norm_num) (by norm_num)
      (by norm_num)⟩

/-- C10: when a level satisfies both the high and the low condition at
once, both classifiers return Warning/"High level" — the high-level check
has priority. -/
theorem C10_high_priority :
    (∀ a mn mx : ℝ, mx ≤ a → a ≤ mn →
        statusFromLimits (some a) (some mn) (some mx)
          = ("Warning", "High level"))
    ∧ (∀ u cap up lo lvl : ℝ, 0 < cap → 0 < up → 0 < lo → up ≤ lvl →
        lvl ≤ lo →
        updateDataClassify (JsNum.num u) cap up lo lvl
          = ⟨"Normal", "Warning", "High level"⟩) := by
  constructor
  · intro a mn mx hmx _hmn
    simp [statusFromLimits, highLimitHit, hmx]
  · intro u cap up lo lvl hcap hup _hlo h1 _h2
    simp [updateDataClassify, JsNum.isFinite, hcap, hup, h1]

/-- Witness for C10 at concrete inputs. -/
theorem C10_high_priority_witness :
    (5 : ℝ) ≤ 7 ∧ (7 : ℝ) ≤ 10
    ∧ statusFromLimits (some 7) (some 10) (some 5)
        = ("Warning", "High level")
    ∧ updateDataClassify (JsNum.num 1) 100 5 10 7
        = ⟨"Normal", "Warning", "High level"⟩ :=
  ⟨by norm_num, by norm_num,
    C10_high_priority.1 7 10 5 (by norm_num) (by norm_num),
    C10_high_priority.2 1 100 5 10 7 (by norm_num) (by norm_num)
      (by norm_num) (by norm_num) (by norm_num)⟩

/-- C1: the 30-minute staleness guard.  If `date_time` is absent or more
than 30 minutes before `now`, the response is forced to volume 0,
fill recomputed from the forced-zero volume, status "Inactive", alert
"No reading in last 30 minutes" and `stale = true`; otherwise
`stale = false` and the raw volume and fill percentage pass through. -/
theorem C1_staleness_guard (now : ℝ) (row : Row) :
    ((row.date_time = none
        ∨ ∃ t, row.date_time = some t ∧ 30 < (now - t) / (1000 * 60)) →
      (buildTankResponseRow now row).stale = true
      ∧ (buildTankResponseRow now row).effective_volume_l = some 0
      ∧ (buildTankResponseRow now row).fill_percentage
          = computeFillPct row.tank_volume (some 0)
      ∧ (buildTankResponseRow now row).tank_status = "Inactive"
      ∧ (buildTankResponseRow now row).tank_alert_message
          = "No reading in last 30 minutes")
    ∧ (∀ t, row.date_time = some t → (now - t) / (1000 * 60) ≤ 30 →
      (buildTankResponseRow now row).stale = false
      ∧ (buildTankResponseRow now row).effective_volume_l
          = (buildTankResponseRow now row).raw_volume_l
      ∧ (buildTankResponseRow now row).fill_percentage
          = computeFillPct row.tank_volume
              (rawVolumeLitres row.tank_no (row.diameter_breadth.getD 0)
                (row.length.getD 0)
                (resolveDepth row.tank_no (row.diameter_breadth.getD 0)
                  row.ultra_height))) := by
  constructor
  · intro hst
    have hs : isStaleAt now row.date_time = true :=
      (isStaleAt_true_iff now row.date_time).mpr hst
    simp [buildTankResponseRow, hs, round1, Int.floor_eq_zero_iff,
      Set.mem_Ico]
    norm_num
  · intro t ht hle
    have hs : isStaleAt now row.date_time = false := by
      rw [ht]
      exact (isStaleAt_false_iff now t).mpr hle
    simp [buildTankResponseRow, hs]

/-- Witness for C1 on a concrete stale row (absent `date_time`). -/
theorem C1_staleness_guard_witness :
    (buildTankResponseRow 0
        { device_id := "d1", tank_no := "T1", location := "loc",
          date_time := none, diameter_breadth := some 2, length := some 5,
          tank_volume := some 10000, upper_safe_limit_pct := none,
          lower_safe_limit_pct := none, ultra_height := some 1 }).stale
        = true
    ∧ (buildTankResponseRow 0
        { device_id := "d1", tank_no := "T1", location := "loc",
          date_time := none, diameter_breadth := some 2, length := some 5,
          tank_volume := some 10000, upper_safe_limit_pct := none,
          lower_safe_limit_pct := none,
          ultra_height := some 1 }).tank_status = "Inactive" := by
  have h := (C1_staleness_guard 0
    { device_id := "d1", tank_no := "T1", location := "loc",
      date_time := none, diameter_breadth := some 2, length := some 5,
      tank_volume := some 10000, upper_safe_limit_pct := none,
      lower_safe_limit_pct := none, ultra_height := some 1 }).1
    (Or.inl rfl)
  exact ⟨h.1, h.2.2.2.1⟩

/-- C3 counterexample: in the update-data route a finite negative sensor
distance yields a depth above the diameter — the claimed upper clamp at
`D` is missing there (`Math.max(0, D - ultraH)` only floors at 0). -/
theorem C3_counterexample :
    updateDataDepth 2 (-1) = 3 ∧ ¬ updateDataDepth 2 (-1) ≤ 2 := by
  norm_num [updateDataDepth]

/-- C3 amended: in tankCurrent the resolved depth is clamped into
`[0, 17.9]` for FIRE-TANK and `[0, D]` for cylinders; in the update-data
route the depth is only floored at 0 (`max 0 (D − distance)`), with no
upper clamp. -/
theorem C3_depth_clamped :
    (∀ (tankNo : String) (D s d : ℝ),
        resolveDepth tankNo D (some s) = some d →
        0 ≤ d ∧ d ≤ (if tankNo = "FIRE-TANK" then 17.9 else D))
    ∧ (∀ D u : ℝ, updateDataDepth D u = max 0 (D - u)
        ∧ 0 ≤ updateDataDepth D u) := by
  constructor
  · intro tankNo D s d hd
    simp only [resolveDepth] at hd
    by_cases hfire : tankNo = "FIRE-TANK"
    · rw [if_pos hfire] at hd
      rw [if_pos hfire]
      obtain rfl := (Option.some_inj.mp hd).symm
      constructor <;> split_ifs with h1 h2 <;> norm_num <;> linarith
    · rw [if_neg hfire] at hd
      rw [if_neg hfire]
      by_cases hD : 0 < D
      · rw [if_pos hD] at hd
        obtain rfl := (Option.some_inj.mp hd).symm
        constructor <;> split_ifs with h1 h2 <;> linarith
      · rw [if_neg hD] at hd
        exact absurd hd (by simp)
  · intro D u
    exact ⟨rfl, le_max_left _ _⟩

/-- Witness for C3 at a concrete cylinder reading. -/
theorem C3_depth_clamped_witness :
    resolveDepth "TANK-1" 2 (some 0.5) = some 1.5
    ∧ ((0 : ℝ) ≤ 1.5
        ∧ ((1.5 : ℝ) ≤ if ("TANK-1" : String) = "FIRE-TANK" then 17.9
            else 2)) := by
  have he : resolveDepth "TANK-1" 2 (some 0.5) = some 1.5 := by
    simp [resolveDepth]
    norm_num
  exact ⟨he, C3_depth_clamped.1 "TANK-1" 2 0.5 1.5 he⟩

/-- A fresh row with no sensor reading, used for C6. -/
def freshNoSensorRow : Row :=
  { device_id := "d2", tank_no := "TANK-2", location := "loc",
    date_time := some 0, diameter_breadth := some 2, length := some 5,
    tank_volume := some 10000, upper_safe_limit_pct := none,
    lower_safe_limit_pct := none, ultra_height := none }

/-- C6 counterexample: an absent sensor distance on a fresh reading gives
depth `null` and status "Unknown", but the alert is "No reading" — not
"No valid level" (that alert only exists in the update-data route, where
the status is "No Data", not "Unknown"). -/
theorem C6_counterexample :
    (buildTankResponseRow 0 freshNoSensorRow).water_depth_m = none
    ∧ (buildTankResponseRow 0 freshNoSensorRow).tank_status = "Unknown"
    ∧ (buildTankResponseRow 0 freshNoSensorRow).tank_alert_message
        = "No reading"
    ∧ (buildTankResponseRow 0 freshNoSensorRow).tank_alert_message
        ≠ "No valid level" := by
  have hs : isStaleAt 0 (some 0) = false := by
    norm_num [isStaleAt]
  simp [buildTankResponseRow, freshNoSensorRow, hs, resolveDepth,
    rawVolumeLitres, statusFromLimits]

/-- C6 amended: in tankCurrent an absent distance on a fresh reading gives
depth `null`, status "Unknown" and alert "No reading"; in the update-data
route a non-finite distance gives flow "Inactive", status "No Data" and
alert "No valid level". -/
theorem C6_no_level :
    (∀ (now : ℝ) (row : Row), row.ultra_height = none →
        isStaleAt now row.date_time = false →
        (buildTankResponseRow now row).water_depth_m = none
        ∧ (buildTankResponseRow now row).tank_status = "Unknown"
        ∧ (buildTankResponseRow now row).tank_alert_message = "No reading")
    ∧ (∀ (u : JsNum) (cap up lo lvl : ℝ), u.isFinite = false →
        updateDataClassify u cap up lo lvl
          = ⟨"Inactive", "No Data", "No valid level"⟩) := by
  constructor
  · intro now row hu hs
    simp [buildTankResponseRow, hu, hs, resolveDepth, rawVolumeLitres,
      statusFromLimits]
  · intro u cap up lo lvl hu
    simp [updateDataClassify, hu]

/-- Witness for C6 at concrete inputs. -/
theorem C6_no_level_witness :
    freshNoSensorRow.ultra_height = none
    ∧ isStaleAt 0 freshNoSensorRow.date_time = false
    ∧ (buildTankResponseRow 0 freshNoSensorRow).tank_status = "Unknown"
    ∧ updateDataClassify JsNum.nan 0 0 0 0
        = ⟨"Inactive", "No Data", "No valid level"⟩ := by
  have hs : isStaleAt 0 freshNoSensorRow.date_time = false := by
    simp [freshNoSensorRow, isStaleAt]
  exact ⟨rfl, hs, (C6_no_level.1 0 freshNoSensorRow rfl hs).2.1,
    C6_no_level.2 JsNum.nan 0 0 0 0 rfl⟩

/-- The status/alert pairs `statusFromLimits` can produce. -/
lemma statusFromLimits_mem (a mn mx : Option ℝ) :
    (statusFromLimits a mn mx).1 ∈ (["OK", "Warning", "Unknown"] :
        List String)
    ∧ (statusFromLimits a mn mx).2 ∈ (["Normal", "High level", "Low level",
        "No reading"] : List String) := by
  cases a with
  | none => simp [statusFromLimits]
  | some x =>
    by_cases h1 : mn = none ∧ mx = none
    · simp [statusFromLimits, h1]
    · simp only [statusFromLimits]
      rw [if_neg h1]
      cases hh : highLimitHit x mx
      · cases hl : lowLimitHit x mn <;> simp [hh, hl]
      · simp [hh]

/-- C7 counterexample: the update-data route produces the status
"No Data", which is outside the claimed status set, and `statusFromLimits`
produces the alert "No reading", which is outside the claimed alert
set. -/
theorem C7_counterexample :
    (updateDataClassify JsNum.nan 0 0 0 0).tankStatus = "No Data"
    ∧ "No Data" ∉ (["OK", "Warning", "Inactive", "Unknown"] : List String)
    ∧ (statusFromLimits none none none).2 = "No reading"
    ∧ "No reading" ∉ (["Normal", "High level", "Low level",
        "No reading in last 30 minutes", "No Data", "No valid level"] :
          List String) := by
  refine ⟨by simp [updateDataClassify, JsNum.isFinite], by simp,
    by simp [statusFromLimits], by simp⟩

/-- C7 amended: every tankCurrent response has a status in
{OK, Warning, Inactive, Unknown} and an alert in {Normal, High level,
Low level, No reading in last 30 minutes, No reading}; every update-data
record has a status in {OK, Warning, No Data}, an alert in {Normal,
High level, Low level, No valid level} and a flow status in
{Normal, Inactive}. -/
theorem C7_status_alert_ranges :
    (∀ (now : ℝ) (row : Row),
        (buildTankResponseRow now row).tank_status
            ∈ (["OK", "Warning", "Inactive", "Unknown"] : List String)
        ∧ (buildTankResponseRow now row).tank_alert_message
            ∈ (["Normal", "High level", "Low level",
                "No reading in last 30 minutes", "No reading"] :
                  List String))
    ∧ (∀ (u : JsNum) (cap up lo lvl : ℝ),
        (updateDataClassify u cap up lo lvl).tankStatus
            ∈ (["OK", "Warning", "No Data"] : List String)
        ∧ (updateDataClassify u cap up lo lvl).tankAlertMessage
            ∈ (["Normal", "High level", "Low level", "No valid level"] :
                List String)
        ∧ (updateDataClassify u cap up lo lvl).flowStatus
            ∈ (["Normal", "Inactive"] : List String)) := by
  constructor
  · intro now row
    by_cases hst : isStaleAt now row.date_time = true
    · simp [buildTankResponseRow, hst]
    · have hst' : isStaleAt now row.date_time = false :=
        Bool.not_eq_true _ ▸ eq_false_of_ne_true hst
      have h := statusFromLimits_mem
        (rawVolumeLitres row.tank_no (row.diameter_breadth.getD 0)
          (row.length.getD 0)
          (resolveDepth row.tank_no (row.diameter_breadth.getD 0)
            row.ultra_height))
        row.lower_safe_limit_pct row.upper_safe_limit_pct
      simp [buildTankResponseRow, hst'] at h ⊢
      tauto
  · intro u cap up lo lvl
    unfold updateDataClassify
    split_ifs <;> simp

/-- Concrete rows for the FIRE-TANK scenarios of C9. -/
def fireRowB : Row :=
  { device_id := "dF", tank_no := "FIRE-TANK", location := "loc",
    date_time := some 0, diameter_breadth := none, length := none,
    tank_volume := none, upper_safe_limit_pct := none,
    lower_safe_limit_pct := none, ultra_height := some 0 }

/-- Same tank with the sensor reading the full height 17.9 m. -/
def fireRowC : Row := { fireRowB with ultra_height := some 17.9 }

/-- History row for scenario B. -/
def fireHistB : HistRow :=
  { tank_no := "FIRE-TANK", ultra_height := some 0, tank_volume := none,
    diameter_breadth := none, length := none }

/-- History row for scenario C. -/
def fireHistC : HistRow := { fireHistB with ultra_height := some 17.9 }

/-- C9: for the FIRE-TANK rectangular geometry (8.9 × 5.15 × 17.9 m), a
sensor distance of 0 resolves to depth 17.9 m and volume 820446.5 L, and
a distance of 17.9 resolves to depth 0 and volume 0 — in both the history
endpoint and the tank-current endpoint. -/
theorem C9_fire_tank_scenarios :
    (historyRowCalc fireHistB).water_depth_m = some 17.9
    ∧ (historyRowCalc fireHistB).water_volume_l = some 820446.5
    ∧ (historyRowCalc fireHistC).water_depth_m = some 0
    ∧ (historyRowCalc fireHistC).water_volume_l = some 0
    ∧ (buildTankResponseRow 0 fireRowB).water_depth_m = some 17.9
    ∧ (buildTankResponseRow 0 fireRowB).raw_volume_l = some 820446.5
    ∧ (buildTankResponseRow 0 fireRowC).water_depth_m = some 0
    ∧ (buildTankResponseRow 0 fireRowC).raw_volume_l = some 0 := by
  refine ⟨?_, ?_, ?_, ?_, ?_, ?_, ?_, ?_⟩ <;>
    norm_num [historyRowCalc, buildTankResponseRow, fireHistB, fireHistC,
      fireRowB, fireRowC, resolveDepth, rawVolumeLitres, round1]

end
